import Mathlib

/-!
# Shallow embedding of the VR Interview Server session core

This file embeds, in Lean 4, the session registry, state machine and
worker-result drain routine of the `vr-interview-server` repository
(`app/state_manager.py`, `app/interview_session.py`, `app/websocket.py`)
and proves properties of the embedded operations.

Modelling conventions:
* Python `dict`s keyed by strings become association lists with
  update-in-place / append-at-end semantics (`alookup`, `aupdate`,
  `ainsert`, `aerase`), matching insertion-ordered dict behaviour.
* Wall-clock time (`time.time()`) is passed in explicitly as a `Nat`
  parameter `now`; every operation that reads the clock takes it.
* Socket emissions become values of an `Event` inductive collected in an
  output list, in the order the Python code emits them.
* Session state names stay the Python strings (`"idle"`, `"listening"`,
  `"processing"`, `"responding"`, `"waiting"`, `"error"`).
* File/audio I/O (saving WAV files, task submission to the worker
  process) has no effect on registry state and is elided; the float
  `difficulty` configuration field is elided as no modelled operation
  reads it.
-/

namespace VRInterview

/-- One entry of `conversation_history`, as built by
`InterviewSession.add_message`: `{"speaker": ..., "text": ..., "timestamp": ...}`. -/
structure Message where
  speaker : String
  text : String
  timestamp : Nat
  deriving Repr, DecidableEq

/-- The mutable per-session record of `app/interview_session.py`
(`InterviewSession.__init__`).  `state_timestamp` is `Option Nat` because
the Python attribute is only created by
`InterviewStateManager.update_session_state` (`hasattr` guards read it). -/
structure InterviewSession where
  session_id : String
  client_id : Option String
  position : String
  interviewer_type : String
  state : String
  active : Bool
  created_at : Nat
  last_activity : Nat
  turn_index : Nat
  conversation_history : List Message
  audio_buffer : List Nat
  state_timestamp : Option Nat
  deriving Repr, DecidableEq

/-- `InterviewSession.__init__`: fresh session in state `"idle"`. -/
def InterviewSession.init (session_id : String) (client_id : Option String)
    (position interviewer_type : String) (now : Nat) : InterviewSession :=
  { session_id := session_id
    client_id := client_id
    position := position
    interviewer_type := interviewer_type
    state := "idle"
    active := true
    created_at := now
    last_activity := now
    turn_index := 0
    conversation_history := []
    audio_buffer := []
    state_timestamp := none }

/-- `InterviewSession.add_message`: append to `conversation_history` and
touch `last_activity`. -/
def InterviewSession.add_message (s : InterviewSession) (speaker text : String)
    (now : Nat) : InterviewSession :=
  { s with
    conversation_history :=
      s.conversation_history ++ [⟨speaker, text, now⟩]
    last_activity := now }

/-- `InterviewSession.clear_audio_buffer`. -/
def InterviewSession.clear_audio_buffer (s : InterviewSession) : InterviewSession :=
  { s with audio_buffer := [] }

/-- `InterviewSession.add_audio_chunk`. -/
def InterviewSession.add_audio_chunk (s : InterviewSession) (chunk : List Nat) :
    InterviewSession :=
  { s with audio_buffer := s.audio_buffer ++ chunk }

/-! ## Association-list model of Python dicts -/

/-- `d.get(k)` on a string-keyed dict. -/
def alookup {α : Type} (k : String) : List (String × α) → Option α
  | [] => none
  | (k', v) :: rest => if k' = k then some v else alookup k rest

/-- In-place mutation of the value stored at key `k`, if present
(`d[k].field = ...` on an object already in the dict). -/
def aupdate {α : Type} (k : String) (f : α → α) : List (String × α) → List (String × α)
  | [] => []
  | (k', v) :: rest =>
      if k' = k then (k', f v) :: rest else (k', v) :: aupdate k f rest

/-- `d[k] = v`: overwrite in place, or append at the end when absent. -/
def ainsert {α : Type} (k : String) (v : α) : List (String × α) → List (String × α)
  | [] => [(k, v)]
  | (k', v') :: rest =>
      if k' = k then (k', v) :: rest else (k', v') :: ainsert k v rest

/-- `del d[k]` (no-op when absent; the Python callers guard with `in`). -/
def aerase {α : Type} (k : String) : List (String × α) → List (String × α)
  | [] => []
  | (k', v) :: rest =>
      if k' = k then rest else (k', v) :: aerase k rest

/-! ## Outbound socket events -/

/-- One socket emission, in the shape the Python handlers emit. -/
inductive Event where
  | error (message : String)
  | state_update (session_id state : String) (turn : Nat) (previous_state : Option String)
  | explicit_state_update (session_id state : String) (turn : Nat) (previous_state : String)
  | ready_for_next_input (session_id state : String) (turn : Nat)
  | response_ready (session_id text audio_url : String) (is_recovery : Bool)
  | listening_started (session_id : String)
  | processing_started (session_id : String)
  | session_created (session_id : String)
  | session_reset (session_id : String)
  deriving Repr, DecidableEq

/-! ## The state manager (`app/state_manager.py`) -/

/-- `InterviewStateManager._initialize`: the two registry indices.
`active_sessions` maps session id to session, `client_sessions` maps
client id to session id. -/
structure InterviewStateManager where
  active_sessions : List (String × InterviewSession)
  client_sessions : List (String × String)
  deriving Repr, DecidableEq

namespace InterviewStateManager

/-- Empty registry as built by `_initialize`. -/
def empty : InterviewStateManager := ⟨[], []⟩

/-- `InterviewStateManager.add_session`. -/
def add_session (m : InterviewStateManager) (s : InterviewSession) :
    InterviewStateManager :=
  { active_sessions := ainsert s.session_id s m.active_sessions
    client_sessions :=
      match s.client_id with
      | some cid => ainsert cid s.session_id m.client_sessions
      | none => m.client_sessions }

/-- `InterviewStateManager.get_session`. -/
def get_session (m : InterviewStateManager) (session_id : String) :
    Option InterviewSession :=
  alookup session_id m.active_sessions

/-- `InterviewStateManager.get_session_by_client_id`. -/
def get_session_by_client_id (m : InterviewStateManager) (client_id : String) :
    Option InterviewSession :=
  match alookup client_id m.client_sessions with
  | some sid => alookup sid m.active_sessions
  | none => none

/-- `InterviewStateManager.remove_session`. -/
def remove_session (m : InterviewStateManager) (session_id : String) :
    InterviewStateManager :=
  match alookup session_id m.active_sessions with
  | some s =>
      { active_sessions := aerase session_id m.active_sessions
        client_sessions :=
          match s.client_id with
          | some cid =>
              match alookup cid m.client_sessions with
              | some _ => aerase cid m.client_sessions
              | none => m.client_sessions
          | none => m.client_sessions }
  | none => m

/-- `InterviewStateManager.mark_session_inactive`. -/
def mark_session_inactive (m : InterviewStateManager) (session_id : String)
    (now : Nat) : InterviewStateManager :=
  match alookup session_id m.active_sessions with
  | some _ =>
      { m with
        active_sessions :=
          aupdate session_id
            (fun s => { s with active := false, last_activity := now })
            m.active_sessions }
  | none => m

/-- `InterviewStateManager.update_session_state`: mutate the session's
`state`, `last_activity` and `state_timestamp`, then emit `state_update`,
`explicit_state_update`, and (when the new state is `"waiting"`)
`ready_for_next_input`.  Returns the new registry, the Python return
value, and the emissions. -/
def update_session_state (m : InterviewStateManager) (session_id new_state : String)
    (now : Nat) : InterviewStateManager × Bool × List Event :=
  match alookup session_id m.active_sessions with
  | none => (m, false, [])
  | some s =>
      let old_state := s.state
      let m' : InterviewStateManager :=
        { m with
          active_sessions :=
            aupdate session_id
              (fun s => { s with
                state := new_state
                last_activity := now
                state_timestamp := some now })
              m.active_sessions }
      let evs : List Event :=
        [Event.state_update session_id new_state s.turn_index (some old_state),
         Event.explicit_state_update session_id new_state s.turn_index old_state] ++
        (if new_state = "waiting" then
          [Event.ready_for_next_input session_id new_state s.turn_index]
         else [])
      (m', true, evs)

/-- `InterviewStateManager.reset_session`: force `state = "idle"`,
`turn_index = 0`, empty history. -/
def reset_session (m : InterviewStateManager) (session_id : String) (now : Nat) :
    InterviewStateManager × Bool :=
  match alookup session_id m.active_sessions with
  | none => (m, false)
  | some _ =>
      ({ m with
         active_sessions :=
           aupdate session_id
             (fun s => { s with
               state := "idle"
               turn_index := 0
               conversation_history := []
               last_activity := now })
             m.active_sessions },
       true)

end InterviewStateManager

/-! ## Websocket handlers (`app/websocket.py`)

Each handler takes the registry, the request data and the clock, and
returns the new registry plus the list of events emitted to the client,
in emission order.  `join_room`, audio file I/O and the
`processing_tasks` bookkeeping dict do not touch the registry and are
elided. -/

open InterviewStateManager

/-- The dedup test of the `progress` branch of `handle_worker_results`:
`any(msg.get('text') == result['transcription'] and msg.get('speaker') == 'user'
for msg in session.conversation_history)`. -/
def userAlreadyInHistory (session : InterviewSession) (tr : String) : Bool :=
  session.conversation_history.any
    (fun msg => msg.text = tr && msg.speaker = "user")

/-- The append guard of the `success` branch of `handle_worker_results`:
`response_text and not any(msg.get('text') == response_text and
msg.get('speaker') == 'interviewer' for msg in session.conversation_history)`. -/
def shouldAppendResponse (session : InterviewSession) (response_text : String) :
    Bool :=
  response_text != "" &&
    !(session.conversation_history.any
      (fun msg => msg.text = response_text && msg.speaker = "interviewer"))

/-- A worker `Result` dict as read by `handle_worker_results`:
`session_id`, `status`, and the optional payload keys the drain routine
accesses (`error`, `transcription`, `response_text`, `audio_url`).
There is no turn/generation marker field in the dict. -/
structure Result where
  session_id : Option String
  status : String
  error : Option String
  transcription : Option String
  response_text : Option String
  audio_url : Option String
  deriving Repr, DecidableEq

/-- Fallback line of the error branch of `handle_worker_results`. -/
def errorFallback : String :=
  "I apologize, but I encountered an issue processing your response. Could you please try again or rephrase your question?"

/-- Fallback line of the stuck-state recovery in `handle_get_state`. -/
def getStateFallback : String :=
  "Thank you for your question. I'd like to explore that further. Can you tell me more about your experience with this?"

/-- Fallback line of the stuck-state recovery in `broadcast_states`. -/
def broadcastFallback : String :=
  "Thank you for your question. Let me think about that for a moment. Could you tell me more about your experience in this field while I formulate my thoughts?"

/-- The stuck-session test shared by `handle_get_state` (threshold 45s)
and `broadcast_states` (threshold 40s):
`state == 'processing' and hasattr(session, 'state_timestamp') and
(time.time() - session.state_timestamp) > threshold`. -/
def stuckFor (session : InterviewSession) (threshold now : Nat) : Bool :=
  session.state = "processing" &&
    (match session.state_timestamp with
     | some ts => decide (threshold < now - ts)
     | none => false)

/-- `handle_connect`: create a fresh `idle` session for the client and
register it (the uuid is passed in; the `emit` is `session_created`). -/
def handle_connect (m : InterviewStateManager) (client_id session_id : String)
    (position interviewer_type : String) (now : Nat) :
    InterviewStateManager × List Event :=
  let session := InterviewSession.init session_id (some client_id) position
    interviewer_type now
  (m.add_session session, [Event.session_created session_id])

/-- `handle_disconnect`: mark the client's session inactive, if any. -/
def handle_disconnect (m : InterviewStateManager) (client_id : String)
    (now : Nat) : InterviewStateManager :=
  match m.get_session_by_client_id client_id with
  | some session => m.mark_session_inactive session.session_id now
  | none => m

/-- `handle_join_session`: bind the session object's `client_id`
attribute to the joining client (note: `client_sessions` is not
touched), then emit the current state. -/
def handle_join_session (m : InterviewStateManager) (data_session_id : Option String)
    (client_id : String) : InterviewStateManager × List Event :=
  match data_session_id with
  | none => (m, [Event.error "Session ID required"])
  | some sid =>
    match m.get_session sid with
    | none => (m, [Event.error "Session not found"])
    | some session =>
      let m' : InterviewStateManager :=
        { m with
          active_sessions :=
            aupdate sid (fun s => { s with client_id := some client_id })
              m.active_sessions }
      (m', [Event.state_update sid session.state session.turn_index none,
            Event.explicit_state_update sid session.state session.turn_index
              session.state])

/-- `handle_start_speaking`: legal only from `idle`/`waiting`; moves the
session to `listening` and clears the audio buffer. -/
def handle_start_speaking (m : InterviewStateManager)
    (data_session_id : Option String) (now : Nat) :
    InterviewStateManager × List Event :=
  match data_session_id with
  | none => (m, [Event.error "Session ID required"])
  | some sid =>
    match m.get_session sid with
    | none => (m, [Event.error "Session not found"])
    | some session =>
      if session.state ≠ "idle" ∧ session.state ≠ "waiting" then
        (m, [Event.error ("Cannot start speaking in " ++ session.state ++ " state")])
      else
        let (m1, _, evs1) := m.update_session_state sid "listening" now
        let m2 : InterviewStateManager :=
          { m1 with
            active_sessions :=
              aupdate sid InterviewSession.clear_audio_buffer m1.active_sessions }
        (m2, evs1 ++ [Event.listening_started sid])

/-- `handle_stop_speaking`: legal only from `listening`; moves the
session to `processing` (audio save and worker submission elided — they
do not touch the registry). -/
def handle_stop_speaking (m : InterviewStateManager)
    (data_session_id : Option String) (now : Nat) :
    InterviewStateManager × List Event :=
  match data_session_id with
  | none => (m, [Event.error "Session ID required"])
  | some sid =>
    match m.get_session sid with
    | none => (m, [Event.error "Session not found"])
    | some session =>
      if session.state ≠ "listening" then
        (m, [Event.error ("Cannot stop speaking in " ++ session.state ++ " state")])
      else
        let (m1, _, evs1) := m.update_session_state sid "processing" now
        (m1, evs1 ++ [Event.processing_started sid])

/-- `handle_reset_session`. -/
def handle_reset_session (m : InterviewStateManager)
    (data_session_id : Option String) (now : Nat) :
    InterviewStateManager × List Event :=
  match data_session_id with
  | none => (m, [Event.error "Session ID required"])
  | some sid =>
    match m.get_session sid with
    | none => (m, [Event.error "Session not found"])
    | some _ =>
      let (m1, _) := m.reset_session sid now
      (m1, [Event.session_reset sid, Event.state_update sid "idle" 0 none])

/-- `handle_get_state`: report the current state; additionally, when the
session has sat in `processing` for more than 45 seconds, append a
fallback interviewer line and force the session to `waiting`. -/
def handle_get_state (m : InterviewStateManager)
    (data_session_id : Option String) (now : Nat) :
    InterviewStateManager × List Event :=
  match data_session_id with
  | none => (m, [Event.error "Session ID required"])
  | some sid =>
    match m.get_session sid with
    | none => (m, [Event.error "Session not found"])
    | some session =>
      let evs0 : List Event :=
        [Event.state_update sid session.state session.turn_index
           (some session.state),
         Event.explicit_state_update sid session.state session.turn_index
           session.state] ++
        (if session.state = "waiting" then
          [Event.ready_for_next_input sid "waiting" session.turn_index]
         else [])
      if stuckFor session 45 now then
        let m1 : InterviewStateManager :=
          { m with
            active_sessions :=
              aupdate sid
                (fun s => s.add_message "interviewer" getStateFallback now)
                m.active_sessions }
        let (m2, _, evs1) := m1.update_session_state sid "waiting" now
        (m2, evs0 ++ evs1 ++
          [Event.response_ready sid getStateFallback "" true,
           Event.explicit_state_update sid "waiting" session.turn_index
             "processing",
           Event.ready_for_next_input sid "waiting" session.turn_index])
      else (m, evs0)

/-- One iteration of the result-drain loop of `handle_worker_results`,
applied to a single dequeued `Result`.  Returns the new registry, the
emissions, and the list of state values written through
`update_session_state` during the iteration (the state-write trace). -/
def handle_worker_result (m : InterviewStateManager) (r : Result) (now : Nat) :
    InterviewStateManager × List Event × List String :=
  match r.session_id with
  | none => (m, [], [])
  | some sid =>
    match m.get_session sid with
    | none => (m, [], [])
    | some session =>
      if r.status = "error" then
        let (m1, _, evs1) := m.update_session_state sid "waiting" now
        let m2 : InterviewStateManager :=
          { m1 with
            active_sessions :=
              aupdate sid
                (fun s => s.add_message "interviewer" errorFallback now)
                m1.active_sessions }
        (m2,
         evs1 ++
           [Event.error ("Processing error: " ++ r.error.getD "None"),
            Event.response_ready sid errorFallback "" true,
            Event.ready_for_next_input sid "waiting" session.turn_index],
         ["waiting"])
      else if r.status = "progress" then
        match r.transcription with
        | some tr =>
          if userAlreadyInHistory session tr then
            (m, [], [])
          else
            ({ m with
               active_sessions :=
                 aupdate sid (fun s => s.add_message "user" tr now)
                   m.active_sessions },
             [], [])
        | none => (m, [], [])
      else if r.status = "success" then
        let response_text := r.response_text.getD ""
        let m1 : InterviewStateManager :=
          if shouldAppendResponse session response_text then
            { m with
              active_sessions :=
                aupdate sid
                  (fun s => s.add_message "interviewer" response_text now)
                  m.active_sessions }
          else m
        let (m2, _, evs1) := m1.update_session_state sid "waiting" now
        let m3 : InterviewStateManager :=
          { m2 with
            active_sessions :=
              aupdate sid (fun s => { s with turn_index := s.turn_index + 1 })
                m2.active_sessions }
        (m3,
         evs1 ++
           [Event.response_ready sid response_text (r.audio_url.getD "") false,
            Event.explicit_state_update sid "waiting" session.turn_index
              "processing",
            Event.ready_for_next_input sid "waiting" (session.turn_index + 1)],
         ["waiting"])
      else (m, [], [])

/-- The per-session body of the `broadcast_states` watchdog greenthread:
re-broadcast the current state; auto-recover sessions stuck in
`processing` for more than 40 seconds; re-send `ready_for_next_input`
when the (possibly just-recovered) session is in `waiting`. -/
def broadcast_tick_session (m : InterviewStateManager) (sid : String)
    (now : Nat) : InterviewStateManager × List Event :=
  match m.get_session sid with
  | none => (m, [])
  | some session =>
    if ¬ session.active then (m, [])
    else
      let evs0 : List Event :=
        [Event.state_update sid session.state session.turn_index
           (some session.state),
         Event.explicit_state_update sid session.state session.turn_index
           session.state]
      let step :=
        if stuckFor session 40 now then
          let ma : InterviewStateManager :=
            { m with
              active_sessions :=
                aupdate sid
                  (fun s => s.add_message "interviewer" broadcastFallback now)
                  m.active_sessions }
          let (mb, _, evsb) := ma.update_session_state sid "waiting" now
          (mb,
           evsb ++
             [Event.response_ready sid broadcastFallback "" true,
              Event.explicit_state_update sid "waiting" session.turn_index
                "processing",
              Event.ready_for_next_input sid "waiting" session.turn_index])
        else (m, [])
      let m1 := step.1
      let liveState :=
        match m1.get_session sid with
        | some s' => s'.state
        | none => session.state
      let liveTurn :=
        match m1.get_session sid with
        | some s' => s'.turn_index
        | none => session.turn_index
      let evs2 : List Event :=
        if liveState = "waiting" then
          [Event.ready_for_next_input sid "waiting" liveTurn]
        else []
      (m1, evs0 ++ step.2 ++ evs2)

/-! ## Association-list lemmas -/

theorem alookup_aupdate_self {α : Type} (k : String) (f : α → α)
    (l : List (String × α)) :
    alookup k (aupdate k f l) = (alookup k l).map f := by
  induction l with
  | nil => simp [alookup, aupdate]
  | cons hd tl ih =>
    obtain ⟨k', v⟩ := hd
    by_cases h : k' = k
    · simp [alookup, aupdate, h]
    · simp [alookup, aupdate, h, ih]

theorem aupdate_of_alookup_none {α : Type} (k : String) (f : α → α)
    (l : List (String × α)) (h : alookup k l = none) :
    aupdate k f l = l := by
  induction l with
  | nil => simp [aupdate]
  | cons hd tl ih =>
    obtain ⟨k', v⟩ := hd
    by_cases hk : k' = k
    · simp [alookup, hk] at h
    · simp [alookup, hk] at h
      simp [aupdate, hk, ih h]

/-- `update_session_state` on a registry that holds the session. -/
theorem update_session_state_of_some (m : InterviewStateManager)
    (sid new_state : String) (s : InterviewSession) (now : Nat)
    (h : alookup sid m.active_sessions = some s) :
    m.update_session_state sid new_state now =
      ({ m with
         active_sessions :=
           aupdate sid
             (fun s => { s with
               state := new_state
               last_activity := now
               state_timestamp := some now })
             m.active_sessions },
       true,
       [Event.state_update sid new_state s.turn_index (some s.state),
        Event.explicit_state_update sid new_state s.turn_index s.state] ++
       (if new_state = "waiting" then
         [Event.ready_for_next_input sid new_state s.turn_index]
        else [])) := by
  simp [InterviewStateManager.update_session_state, h]

/-- `update_session_state` on a registry without the session. -/
theorem update_session_state_of_none (m : InterviewStateManager)
    (sid new_state : String) (now : Nat)
    (h : alookup sid m.active_sessions = none) :
    m.update_session_state sid new_state now = (m, false, []) := by
  simp [InterviewStateManager.update_session_state, h]

/-- The error branch of the result drain: registry outcome, emissions
and state-write trace, for any session present in the registry. -/
theorem handle_worker_result_error_parts (m : InterviewStateManager)
    (sid : String) (s : InterviewSession) (r : Result) (now : Nat)
    (h : m.get_session sid = some s) (hr : r.session_id = some sid)
    (hs : r.status = "error") :
    (handle_worker_result m r now).1.get_session sid =
      some { s with
        state := "waiting"
        last_activity := now
        state_timestamp := some now
        conversation_history :=
          s.conversation_history ++ [⟨"interviewer", errorFallback, now⟩] } ∧
    (handle_worker_result m r now).2.1 =
      [Event.state_update sid "waiting" s.turn_index (some s.state),
       Event.explicit_state_update sid "waiting" s.turn_index s.state,
       Event.ready_for_next_input sid "waiting" s.turn_index,
       Event.error ("Processing error: " ++ r.error.getD "None"),
       Event.response_ready sid errorFallback "" true,
       Event.ready_for_next_input sid "waiting" s.turn_index] ∧
    (handle_worker_result m r now).2.2 = ["waiting"] := by
  have h' : alookup sid m.active_sessions = some s := h
  refine ⟨?_, ?_, ?_⟩ <;>
    simp [handle_worker_result, hr, h, h', hs,
      update_session_state_of_some m sid "waiting" s now h',
      InterviewStateManager.get_session, alookup_aupdate_self,
      InterviewSession.add_message]

/-- The success branch of the result drain: registry outcome, emissions
and state-write trace, for any session present in the registry.  The
history gains the interviewer line exactly when the response text is
non-empty and no identical interviewer line is already present. -/
theorem handle_worker_result_success_parts (m : InterviewStateManager)
    (sid : String) (s : InterviewSession) (r : Result) (now : Nat)
    (h : m.get_session sid = some s) (hr : r.session_id = some sid)
    (hs : r.status = "success") :
    (handle_worker_result m r now).1.get_session sid =
      some { s with
        state := "waiting"
        last_activity := now
        state_timestamp := some now
        turn_index := s.turn_index + 1
        conversation_history :=
          if shouldAppendResponse s (r.response_text.getD "") then
            s.conversation_history ++
              [⟨"interviewer", r.response_text.getD "", now⟩]
          else s.conversation_history } ∧
    (handle_worker_result m r now).2.1 =
      [Event.state_update sid "waiting" s.turn_index (some s.state),
       Event.explicit_state_update sid "waiting" s.turn_index s.state,
       Event.ready_for_next_input sid "waiting" s.turn_index,
       Event.response_ready sid (r.response_text.getD "") (r.audio_url.getD "")
         false,
       Event.explicit_state_update sid "waiting" s.turn_index "processing",
       Event.ready_for_next_input sid "waiting" (s.turn_index + 1)] ∧
    (handle_worker_result m r now).2.2 = ["waiting"] := by
  have h' : alookup sid m.active_sessions = some s := h
  by_cases hc : shouldAppendResponse s (r.response_text.getD "") = true
  · have hupd := update_session_state_of_some
      { active_sessions :=
          aupdate sid
            (fun s =>
              s.add_message "interviewer" (r.response_text.getD "") now)
            m.active_sessions
        client_sessions := m.client_sessions }
      sid "waiting" (s.add_message "interviewer" (r.response_text.getD "") now)
      now (by simp [alookup_aupdate_self, h'])
    refine ⟨?_, ?_, ?_⟩
    · simp [handle_worker_result, hr, h', hs, hc, hupd,
        InterviewStateManager.get_session, alookup_aupdate_self]
      simp [InterviewSession.add_message]
    · simp [handle_worker_result, hr, h', hs, hc, hupd,
        InterviewStateManager.get_session]
      simp [InterviewSession.add_message]
    · simp [handle_worker_result, hr, h', hs, hc, hupd,
        InterviewStateManager.get_session]
  · refine ⟨?_, ?_, ?_⟩ <;>
      simp [handle_worker_result, hr, h, h', hs, hc,
        update_session_state_of_some m sid "waiting" s now h',
        InterviewStateManager.get_session, alookup_aupdate_self,
        InterviewSession.add_message]

/-! ## Claim theorems -/

/-- C3: an illegal transition attempt — `start_speaking` while the state
is neither `idle` nor `waiting`, or `stop_speaking` while the state is
not `listening` — produces exactly an `error` event and returns the
registry unchanged (so the session's `state` and `turn_index` are
untouched). -/
theorem C3_illegal_transitions_reject (m : InterviewStateManager)
    (sid : String) (s : InterviewSession) (now : Nat)
    (h : m.get_session sid = some s) :
    (s.state ≠ "idle" → s.state ≠ "waiting" →
      handle_start_speaking m (some sid) now =
        (m, [Event.error ("Cannot start speaking in " ++ s.state ++ " state")])) ∧
    (s.state ≠ "listening" →
      handle_stop_speaking m (some sid) now =
        (m, [Event.error ("Cannot stop speaking in " ++ s.state ++ " state")])) := by
  constructor
  · intro h1 h2
    simp [handle_start_speaking, h, h1, h2]
  · intro h1
    simp [handle_stop_speaking, h, h1]

/-- C3 witness: a concrete session in state `processing` rejects both
`start_speaking` and `stop_speaking` with an error, registry unchanged. -/
theorem C3_illegal_transitions_reject_witness :
    let s : InterviewSession :=
      { InterviewSession.init "s1" (some "c1") "Software Engineer"
          "professional" 0 with state := "processing" }
    let m := InterviewStateManager.empty.add_session s
    handle_start_speaking m (some "s1") 7 =
      (m, [Event.error "Cannot start speaking in processing state"]) ∧
    handle_stop_speaking m (some "s1") 7 =
      (m, [Event.error "Cannot stop speaking in processing state"]) := by
  intro s m
  have h : m.get_session "s1" = some s := by decide
  have hC := C3_illegal_transitions_reject m "s1" s 7 h
  exact ⟨hC.1 (by decide) (by decide), hC.2 (by decide)⟩

/-- C6: `reset_session` on an existing session, from any prior state,
leaves it with state `idle`, `turn_index = 0` and empty history. -/
theorem C6_reset_round_trip (m : InterviewStateManager) (sid : String)
    (s : InterviewSession) (now : Nat) (h : m.get_session sid = some s) :
    (handle_reset_session m (some sid) now).1.get_session sid =
      some { s with
        state := "idle"
        turn_index := 0
        conversation_history := []
        last_activity := now } ∧
    (handle_reset_session m (some sid) now).2 =
      [Event.session_reset sid, Event.state_update sid "idle" 0 none] := by
  have h' : alookup sid m.active_sessions = some s := h
  constructor
  · simp [handle_reset_session, h, InterviewStateManager.reset_session, h',
      InterviewStateManager.get_session, alookup_aupdate_self]
  · simp [handle_reset_session, h, InterviewStateManager.reset_session, h']

/-- C6 witness: resetting a concrete session that is in `waiting` with
two history entries and `turn_index = 2` returns it to the initial
shape. -/
theorem C6_reset_round_trip_witness :
    let s : InterviewSession :=
      { InterviewSession.init "s1" (some "c1") "Software Engineer"
          "professional" 0 with
        state := "waiting"
        turn_index := 2
        conversation_history :=
          [⟨"user", "hi", 1⟩, ⟨"interviewer", "hello", 2⟩] }
    let m := InterviewStateManager.empty.add_session s
    (handle_reset_session m (some "s1") 9).1.get_session "s1" =
      some { s with
        state := "idle"
        turn_index := 0
        conversation_history := []
        last_activity := 9 } := by
  intro s m
  exact (C6_reset_round_trip m "s1" s 9 (by decide)).1

/-- C9: every registry operation applied to a session id absent from the
registry returns its not-found signal (`none` / `false`) and leaves the
registry unchanged; a client-id lookup that is unknown, or that resolves
to an absent session id, also returns `none`. -/
theorem C9_unknown_id_safe (m : InterviewStateManager) (sid cid new_state : String)
    (now : Nat) (h : m.get_session sid = none) :
    m.get_session sid = none ∧
    m.update_session_state sid new_state now = (m, false, []) ∧
    m.reset_session sid now = (m, false) ∧
    m.mark_session_inactive sid now = m ∧
    m.remove_session sid = m ∧
    (alookup cid m.client_sessions = some sid →
      m.get_session_by_client_id cid = none) ∧
    (alookup cid m.client_sessions = none →
      m.get_session_by_client_id cid = none) := by
  have h' : alookup sid m.active_sessions = none := h
  refine ⟨h, update_session_state_of_none m sid new_state now h', ?_, ?_, ?_, ?_, ?_⟩
  · simp [InterviewStateManager.reset_session, h']
  · simp [InterviewStateManager.mark_session_inactive, h']
  · simp [InterviewStateManager.remove_session, h']
  · intro hc
    simp [InterviewStateManager.get_session_by_client_id, hc, h']
  · intro hc
    simp [InterviewStateManager.get_session_by_client_id, hc]

/-- C5: draining a worker `error` Result for a session in `processing`
moves the session to `waiting` (never `error`), appends exactly one
fallback interviewer entry to the history, and emits an error
notification plus a recovery response (and ready-for-next-input). -/
theorem C5_error_result_recovers_to_waiting (m : InterviewStateManager)
    (sid : String) (s : InterviewSession) (r : Result) (now : Nat)
    (h : m.get_session sid = some s) (hst : s.state = "processing")
    (hr : r.session_id = some sid) (hs : r.status = "error") :
    (handle_worker_result m r now).1.get_session sid =
      some { s with
        state := "waiting"
        last_activity := now
        state_timestamp := some now
        conversation_history :=
          s.conversation_history ++ [⟨"interviewer", errorFallback, now⟩] } ∧
    (handle_worker_result m r now).2.1 =
      [Event.state_update sid "waiting" s.turn_index (some "processing"),
       Event.explicit_state_update sid "waiting" s.turn_index "processing",
       Event.ready_for_next_input sid "waiting" s.turn_index,
       Event.error ("Processing error: " ++ r.error.getD "None"),
       Event.response_ready sid errorFallback "" true,
       Event.ready_for_next_input sid "waiting" s.turn_index] := by
  have hp := handle_worker_result_error_parts m sid s r now h hr hs
  rw [hst] at hp
  exact ⟨hp.1, hp.2.1⟩

/-- C5 witness: a concrete `processing` session drained with a concrete
`error` Result ends in `waiting` with the single fallback entry appended
and the error/recovery notifications emitted. -/
theorem C5_error_result_recovers_to_waiting_witness :
    let s : InterviewSession :=
      { InterviewSession.init "s5" (some "c5") "Software Engineer"
          "professional" 0 with
        state := "processing"
        state_timestamp := some 10
        turn_index := 1
        conversation_history := [⟨"user", "my answer", 10⟩] }
    let m := InterviewStateManager.empty.add_session s
    let r : Result :=
      { session_id := some "s5", status := "error",
        error := some "Transcription failed", transcription := none,
        response_text := none, audio_url := none }
    (handle_worker_result m r 20).1.get_session "s5" =
      some { s with
        state := "waiting"
        last_activity := 20
        state_timestamp := some 20
        conversation_history :=
          s.conversation_history ++ [⟨"interviewer", errorFallback, 20⟩] } ∧
    (handle_worker_result m r 20).2.1 =
      [Event.state_update "s5" "waiting" 1 (some "processing"),
       Event.explicit_state_update "s5" "waiting" 1 "processing",
       Event.ready_for_next_input "s5" "waiting" 1,
       Event.error "Processing error: Transcription failed",
       Event.response_ready "s5" errorFallback "" true,
       Event.ready_for_next_input "s5" "waiting" 1] := by
  intro s m r
  exact C5_error_result_recovers_to_waiting m "s5" s r 20 (by decide) rfl rfl rfl

/-- C10: `handle_get_state` is not read-only — when the session has sat
in `processing` for more than 45 seconds it appends one fallback
interviewer message and force-transitions the session to `waiting`
(turn index untouched); for every other session the registry is
returned unchanged. -/
theorem C10_get_state_mutates_stuck_sessions (m : InterviewStateManager)
    (sid : String) (s : InterviewSession) (now : Nat)
    (h : m.get_session sid = some s) :
    (stuckFor s 45 now = true →
      (handle_get_state m (some sid) now).1.get_session sid =
        some { s with
          state := "waiting"
          last_activity := now
          state_timestamp := some now
          conversation_history :=
            s.conversation_history ++
              [⟨"interviewer", getStateFallback, now⟩] }) ∧
    (stuckFor s 45 now = false →
      (handle_get_state m (some sid) now).1 = m) := by
  have h' : alookup sid m.active_sessions = some s := h
  constructor
  · intro hstuck
    have hupd := update_session_state_of_some
      { active_sessions :=
          aupdate sid (fun s => s.add_message "interviewer" getStateFallback now)
            m.active_sessions
        client_sessions := m.client_sessions }
      sid "waiting" (s.add_message "interviewer" getStateFallback now) now
      (by simp [alookup_aupdate_self, h'])
    simp [handle_get_state, h, h', hstuck, hupd,
      InterviewStateManager.get_session, alookup_aupdate_self]
    simp [InterviewSession.add_message]
  · intro hns
    simp [handle_get_state, h, h', hns]

/-- C10 witness: a session stuck in `processing` since time 0 queried at
time 50 gains the fallback line and lands in `waiting`; a `waiting`
session queried at the same time leaves the registry untouched. -/
theorem C10_get_state_mutates_stuck_sessions_witness :
    let s : InterviewSession :=
      { InterviewSession.init "sA" (some "cA") "Software Engineer"
          "professional" 0 with
        state := "processing"
        state_timestamp := some 0 }
    let m := InterviewStateManager.empty.add_session s
    let w : InterviewSession :=
      { InterviewSession.init "sB" (some "cB") "Software Engineer"
          "professional" 0 with
        state := "waiting"
        state_timestamp := some 0 }
    let mw := InterviewStateManager.empty.add_session w
    (handle_get_state m (some "sA") 50).1.get_session "sA" =
      some { s with
        state := "waiting"
        last_activity := 50
        state_timestamp := some 50
        conversation_history := [⟨"interviewer", getStateFallback, 50⟩] } ∧
    (handle_get_state mw (some "sB") 50).1 = mw := by
  intro s m w mw
  refine ⟨?_, ?_⟩
  · exact (C10_get_state_mutates_stuck_sessions m "sA" s 50 (by decide)).1
      (by decide)
  · exact (C10_get_state_mutates_stuck_sessions mw "sB" w 50 (by decide)).2
      (by decide)

/-- A concrete session sitting in `processing`, used to exercise the
result-drain scenarios on explicit inputs. -/
def sampleProcessingSession : InterviewSession :=
  { InterviewSession.init "s1" (some "c1") "Software Engineer"
      "professional" 0 with
    state := "processing"
    state_timestamp := some 10
    conversation_history := [⟨"user", "I enjoy building backend systems.", 10⟩] }

/-- Registry holding just `sampleProcessingSession`. -/
def sampleManager : InterviewStateManager :=
  InterviewStateManager.empty.add_session sampleProcessingSession

/-- A concrete `success` Result for `sampleProcessingSession`. -/
def sampleSuccessResult : Result :=
  { session_id := some "s1", status := "success", error := none
    transcription := some "I enjoy building backend systems."
    response_text := some "Great. What challenges did you face?"
    audio_url := some "/responses/s1_0.wav" }

/-- C1 counterexample: on a concrete `processing` session and a concrete
`success` Result, the drain's state-write sequence is exactly
`[processing, waiting]` — the session never enters `responding` on its
way to `waiting`, refuting the claimed `processing → responding →
waiting` sequence. -/
theorem C1_counterexample_responding_never_entered :
    sampleProcessingSession.state = "processing" ∧
    sampleSuccessResult.status = "success" ∧
    sampleProcessingSession.state ::
        (handle_worker_result sampleManager sampleSuccessResult 60).2.2 =
      ["processing", "waiting"] ∧
    "responding" ∉ sampleProcessingSession.state ::
      (handle_worker_result sampleManager sampleSuccessResult 60).2.2 := by
  decide

/-- C1 (amended): for every `success` Result applied by the result
drain to a session in `processing`, the session transitions *directly*
`processing → waiting` (the `responding` state is never entered), and
the notification sequence — response payload (`response_ready`),
explicit state update, ready-for-next-input marker — is emitted. -/
theorem C1_success_direct_to_waiting (m : InterviewStateManager)
    (sid : String) (s : InterviewSession) (r : Result) (now : Nat)
    (h : m.get_session sid = some s) (hst : s.state = "processing")
    (hr : r.session_id = some sid) (hs : r.status = "success") :
    s.state :: (handle_worker_result m r now).2.2 =
      ["processing", "waiting"] ∧
    "responding" ∉ s.state :: (handle_worker_result m r now).2.2 ∧
    ((handle_worker_result m r now).1.get_session sid).map
      InterviewSession.state = some "waiting" ∧
    (handle_worker_result m r now).2.1 =
      [Event.state_update sid "waiting" s.turn_index (some "processing"),
       Event.explicit_state_update sid "waiting" s.turn_index "processing",
       Event.ready_for_next_input sid "waiting" s.turn_index,
       Event.response_ready sid (r.response_text.getD "")
         (r.audio_url.getD "") false,
       Event.explicit_state_update sid "waiting" s.turn_index "processing",
       Event.ready_for_next_input sid "waiting" (s.turn_index + 1)] := by
  have hp := handle_worker_result_success_parts m sid s r now h hr hs
  rw [hst] at hp
  refine ⟨?_, ?_, ?_, hp.2.1⟩
  · rw [hst, hp.2.2]
  · rw [hst, hp.2.2]
    decide
  · rw [hp.1]
    rfl

/-- C1 witness: the amended theorem instantiated on the concrete
processing session and success Result. -/
theorem C1_success_direct_to_waiting_witness :
    sampleProcessingSession.state ::
        (handle_worker_result sampleManager sampleSuccessResult 60).2.2 =
      ["processing", "waiting"] ∧
    ((handle_worker_result sampleManager sampleSuccessResult 60).1.get_session
        "s1").map InterviewSession.state = some "waiting" := by
  have hC := C1_success_direct_to_waiting sampleManager "s1"
    sampleProcessingSession sampleSuccessResult 60 (by decide) rfl rfl rfl
  exact ⟨hC.1, hC.2.2.1⟩

/-- C7: draining the same `success` Result (same response text and
speaker) a second time appends no additional entry: the conversation
history after two drains equals the history after one. -/
theorem C7_success_drain_idempotent_history (m : InterviewStateManager)
    (sid : String) (s : InterviewSession) (r : Result) (now now' : Nat)
    (h : m.get_session sid = some s) (hr : r.session_id = some sid)
    (hs : r.status = "success") :
    ((handle_worker_result (handle_worker_result m r now).1 r now').1.get_session
        sid).map InterviewSession.conversation_history =
      ((handle_worker_result m r now).1.get_session sid).map
        InterviewSession.conversation_history := by
  have hp := handle_worker_result_success_parts m sid s r now h hr hs
  have hp2 := handle_worker_result_success_parts
    (handle_worker_result m r now).1 sid _ r now' hp.1 hr hs
  rw [hp2.1, hp.1]
  by_cases hrt : r.response_text.getD "" = ""
  · simp [shouldAppendResponse, hrt]
  · cases hc : shouldAppendResponse s (r.response_text.getD "") with
    | true => simp [hc, shouldAppendResponse, List.any_append, hrt]
    | false =>
      have hany : s.conversation_history.any
          (fun msg => msg.text = r.response_text.getD "" &&
            msg.speaker = "interviewer") = true := by
        simpa [shouldAppendResponse, hrt] using hc
      simp [hc, shouldAppendResponse, hrt, hany]

/-- C7 witness: drained twice on the concrete processing session, the
second drain leaves the history exactly as after the first. -/
theorem C7_success_drain_idempotent_history_witness :
    ((handle_worker_result
        (handle_worker_result sampleManager sampleSuccessResult 60).1
        sampleSuccessResult 61).1.get_session "s1").map
      InterviewSession.conversation_history =
    ((handle_worker_result sampleManager sampleSuccessResult 60).1.get_session
        "s1").map InterviewSession.conversation_history :=
  C7_success_drain_idempotent_history sampleManager "s1"
    sampleProcessingSession sampleSuccessResult 60 61 (by decide) rfl rfl

/-- A concrete `processing` session that has already completed one
turn, for the turn-index scenarios. -/
def turnOneSession : InterviewSession :=
  { InterviewSession.init "s4" (some "c4") "Software Engineer"
      "professional" 0 with
    state := "processing"
    turn_index := 1
    state_timestamp := some 100
    conversation_history :=
      [⟨"user", "first answer", 50⟩, ⟨"interviewer", "next question", 60⟩] }

/-- Registry holding just `turnOneSession`. -/
def turnOneManager : InterviewStateManager :=
  InterviewStateManager.empty.add_session turnOneSession

/-- A concrete worker `error` Result for `turnOneSession`. -/
def errorResult : Result :=
  { session_id := some "s4", status := "error"
    error := some "worker crashed", transcription := none
    response_text := none, audio_url := none }

/-- C4 counterexample: a response cycle completed by a worker `error`
Result (a recovery cycle) leaves `turn_index` at 1 instead of
incrementing it, and `reset_session` drops `turn_index` from 1 back to
0, so `turn_index` is neither incremented once per recovered cycle nor
non-decreasing over the session's lifetime. -/
theorem C4_counterexample_recovery_and_reset :
    (((handle_worker_result turnOneManager errorResult 200).1.get_session
        "s4").map InterviewSession.turn_index = some 1) ∧
    (((handle_worker_result turnOneManager errorResult 200).1.get_session
        "s4").map InterviewSession.state = some "waiting") ∧
    (((turnOneManager.reset_session "s4" 300).1.get_session "s4").map
      InterviewSession.turn_index = some 0) := by
  decide

/-- C4 (amended): apart from `reset_session`, which forces `turn_index`
to 0, no modelled operation decreases a session's `turn_index`; a
drained Result increments it by exactly one when its status is
`success` and leaves it unchanged otherwise (in particular on `error`),
and the watchdog tick, `get_state` recovery, `start_speaking`,
`stop_speaking`, `join_session` and `mark_session_inactive` all leave
it unchanged. -/
theorem C4_turn_index_monotone_amended (m : InterviewStateManager)
    (sid cid : String) (s : InterviewSession) (r : Result) (now : Nat)
    (h : m.get_session sid = some s) :
    (r.session_id = some sid →
      ((handle_worker_result m r now).1.get_session sid).map
          InterviewSession.turn_index =
        some (if r.status = "success" then s.turn_index + 1
              else s.turn_index)) ∧
    (((broadcast_tick_session m sid now).1.get_session sid).map
      InterviewSession.turn_index = some s.turn_index) ∧
    (((handle_get_state m (some sid) now).1.get_session sid).map
      InterviewSession.turn_index = some s.turn_index) ∧
    (((handle_start_speaking m (some sid) now).1.get_session sid).map
      InterviewSession.turn_index = some s.turn_index) ∧
    (((handle_stop_speaking m (some sid) now).1.get_session sid).map
      InterviewSession.turn_index = some s.turn_index) ∧
    (((handle_join_session m (some sid) cid).1.get_session sid).map
      InterviewSession.turn_index = some s.turn_index) ∧
    (((m.mark_session_inactive sid now).get_session sid).map
      InterviewSession.turn_index = some s.turn_index) ∧
    (((handle_reset_session m (some sid) now).1.get_session sid).map
      InterviewSession.turn_index = some 0) := by
  have h' : alookup sid m.active_sessions = some s := h
  refine ⟨?_, ?_, ?_, ?_, ?_, ?_, ?_, ?_⟩
  · intro hr
    by_cases hs1 : r.status = "success"
    · rw [(handle_worker_result_success_parts m sid s r now h hr hs1).1]
      simp [hs1]
    · by_cases hs2 : r.status = "error"
      · rw [(handle_worker_result_error_parts m sid s r now h hr hs2).1]
        simp [hs2, hs1]
      · by_cases hs3 : r.status = "progress"
        · cases htr : r.transcription with
          | none =>
            simp [handle_worker_result, hr, h', hs1, hs2, hs3, htr,
              InterviewStateManager.get_session]
          | some tr =>
            by_cases hdup : userAlreadyInHistory s tr = true
            · simp [handle_worker_result, hr, h', hs1, hs2, hs3, htr, hdup,
                InterviewStateManager.get_session]
            · simp [handle_worker_result, hr, h', hs1, hs2, hs3, htr, hdup,
                InterviewStateManager.get_session, alookup_aupdate_self,
                InterviewSession.add_message]
        · simp [handle_worker_result, hr, h', hs1, hs2, hs3,
            InterviewStateManager.get_session]
  · cases hact : s.active with
    | false =>
      simp [broadcast_tick_session, h, h', hact,
        InterviewStateManager.get_session]
    | true =>
      by_cases hstuck : stuckFor s 40 now = true
      · have hupd := update_session_state_of_some
          { active_sessions :=
              aupdate sid
                (fun s => s.add_message "interviewer" broadcastFallback now)
                m.active_sessions
            client_sessions := m.client_sessions }
          sid "waiting" (s.add_message "interviewer" broadcastFallback now)
          now (by simp [alookup_aupdate_self, h'])
        simp [broadcast_tick_session, h, h', hact, hstuck, hupd,
          InterviewStateManager.get_session, alookup_aupdate_self]
        simp [InterviewSession.add_message]
      · simp [broadcast_tick_session, h, h', hact, hstuck,
          InterviewStateManager.get_session]
  · by_cases hstuck : stuckFor s 45 now = true
    · have hupd := update_session_state_of_some
        { active_sessions :=
            aupdate sid
              (fun s => s.add_message "interviewer" getStateFallback now)
              m.active_sessions
          client_sessions := m.client_sessions }
        sid "waiting" (s.add_message "interviewer" getStateFallback now)
        now (by simp [alookup_aupdate_self, h'])
      simp [handle_get_state, h, h', hstuck, hupd,
        InterviewStateManager.get_session, alookup_aupdate_self]
      simp [InterviewSession.add_message]
    · simp [handle_get_state, h, h', hstuck,
        InterviewStateManager.get_session]
  · by_cases hleg : s.state ≠ "idle" ∧ s.state ≠ "waiting"
    · simp [handle_start_speaking, h, h', hleg,
        InterviewStateManager.get_session]
    · have hupd := update_session_state_of_some m sid "listening" s now h'
      simp [handle_start_speaking, h, h', hleg, hupd,
        InterviewStateManager.get_session, alookup_aupdate_self,
        InterviewSession.clear_audio_buffer]
  · by_cases hleg : s.state = "listening"
    · have hupd := update_session_state_of_some m sid "processing" s now h'
      simp [handle_stop_speaking, h, h', hleg, hupd,
        InterviewStateManager.get_session, alookup_aupdate_self]
    · simp [handle_stop_speaking, h, h', hleg,
        InterviewStateManager.get_session]
  · simp [handle_join_session, h, h',
      InterviewStateManager.get_session, alookup_aupdate_self]
  · simp [InterviewStateManager.mark_session_inactive, h',
      InterviewStateManager.get_session, alookup_aupdate_self]
  · simp [handle_reset_session, h, h', InterviewStateManager.reset_session,
      InterviewStateManager.get_session, alookup_aupdate_self]

/-- C4 witness: the amended theorem applied to the concrete
one-turn session — the drained `error` Result leaves `turn_index` at 1
and `reset_session` forces it to 0. -/
theorem C4_turn_index_monotone_amended_witness :
    ((handle_worker_result turnOneManager errorResult 200).1.get_session
        "s4").map InterviewSession.turn_index = some 1 ∧
    ((handle_reset_session turnOneManager (some "s4") 200).1.get_session
        "s4").map InterviewSession.turn_index = some 0 := by
  have hC := C4_turn_index_monotone_amended turnOneManager "s4" "c4"
    turnOneSession errorResult 200 (by decide)
  exact ⟨by simpa using hC.1 rfl, hC.2.2.2.2.2.2.2⟩

/-- A concrete session that was already recovered by the watchdog: it
sits in `waiting` at `turn_index = 5` with the watchdog fallback line in
its history. -/
def recoveredSession : InterviewSession :=
  { InterviewSession.init "s2" (some "c2") "Software Engineer"
      "professional" 0 with
    state := "waiting"
    turn_index := 5
    state_timestamp := some 150
    conversation_history :=
      [⟨"user", "question about scaling", 100⟩,
       ⟨"interviewer", broadcastFallback, 150⟩] }

/-- Registry holding just `recoveredSession`. -/
def recoveredManager : InterviewStateManager :=
  InterviewStateManager.empty.add_session recoveredSession

/-- A late worker `success` Result produced for an old turn of `s2`,
arriving after the watchdog recovery.  The `Result` dict carries no
generation or turn marker of any kind. -/
def staleResult : Result :=
  { session_id := some "s2", status := "success", error := none
    transcription := some "question about scaling"
    response_text := some "Scaling that service needs careful sharding."
    audio_url := some "/responses/s2_0.wav" }

/-- C2: the drain routine contains no staleness check, so a `success`
Result arriving after the session has already been recovered (session
at `turn_index = 5`, Result produced for turn 0) is applied in full —
`turn_index` advances to 6, the history grows by one interviewer entry,
the session is re-transitioned to `waiting` and the full notification
sequence is emitted — instead of being discarded without mutation. -/
theorem C2_stale_result_is_applied :
    (((handle_worker_result recoveredManager staleResult 200).1.get_session
        "s2").map InterviewSession.turn_index = some 6) ∧
    (((handle_worker_result recoveredManager staleResult 200).1.get_session
        "s2").map (fun s => s.conversation_history.length) = some 3) ∧
    (handle_worker_result recoveredManager staleResult 200).2.2 =
      ["waiting"] ∧
    (handle_worker_result recoveredManager staleResult 200).2.1 ≠ [] := by
  decide

/-- Registry state reached by: client `c1` connects (auto-creating
session `S0`), client `c2` connects (auto-creating `S1`), then `c1`
sends `join_session` for `S1`. -/
def joinScenarioManager : InterviewStateManager :=
  (handle_join_session
    (handle_connect
      (handle_connect InterviewStateManager.empty "c1" "S0"
        "Software Engineer" "professional" 0).1
      "c2" "S1" "Software Engineer" "professional" 1).1
    (some "S1") "c1").1

/-- C8: after `c1` joins `S1`, the two registry indices disagree —
session `S1`'s own `client_id` attribute says `c1`, yet looking `c1` up
through the `client_sessions` index still yields session `S0`, because
`handle_join_session` never updates the connection index. -/
theorem C8_indices_disagree_after_join :
    ((joinScenarioManager.get_session "S1").map InterviewSession.client_id =
      some (some "c1")) ∧
    ((joinScenarioManager.get_session_by_client_id "c1").map
      InterviewSession.session_id = some "S0") ∧
    joinScenarioManager.get_session_by_client_id "c1" ≠
      joinScenarioManager.get_session "S1" := by
  decide

/-- C9 witness: on a registry holding one session `s1`, the unknown id
`nope` is rejected by every operation without mutation, including via a
dangling client-id binding. -/
theorem C9_unknown_id_safe_witness :
    let s : InterviewSession :=
      InterviewSession.init "s1" (some "c1") "Software Engineer"
        "professional" 0
    let m : InterviewStateManager :=
      { active_sessions := [("s1", s)], client_sessions := [("c1", "s1"), ("c9", "nope")] }
    m.update_session_state "nope" "waiting" 3 = (m, false, []) ∧
    m.reset_session "nope" 3 = (m, false) ∧
    m.mark_session_inactive "nope" 3 = m ∧
    m.remove_session "nope" = m ∧
    m.get_session_by_client_id "c9" = none := by
  intro s m
  have hC := C9_unknown_id_safe m "nope" "c9" "waiting" 3 (by decide)
  exact ⟨hC.2.1, hC.2.2.1, hC.2.2.2.1, hC.2.2.2.2.1,
    hC.2.2.2.2.2.1 (by decide)⟩

end VRInterview
